import Mathlib

/-!
Shallow embedding of the engagement-throttle layer of the `companion_core`
plugin: the per-user `user_state` row of `db.py` together with its claim /
settle / candidate-scan operations, the `rss_seen` dedup table, and the
per-candidate loops of the push job drivers (`proactive.py`, `rss_push.py`,
`weather_push.py`).

Conventions of the embedding:
- a user's row in the `user_state` table is an `Option UserState`
  (`none` = no row; every statement-level operation of the source touches at
  most the row selected by its `WHERE user_id = ?` clause);
- timestamps are Unix seconds as `Int` (Python `int(dt.timestamp())`);
- calendar days are ISO strings (Python `date.isoformat()`);
- a failed claim rolls its transaction back (`conn.rollback()`), so the
  operation returns the store unchanged in that case.
-/

/-- Row of the `user_state` table as created by `init_db` in `db.py`. -/
structure UserState where
  last_active_ts : Int
  last_proactive_ts : Int
  proactive_date : String
  proactive_count_today : Int
  proactive_enabled : Int
  cooldown_until_ts : Int
  lock_until_ts : Int
  deriving DecidableEq, Repr

/-- Fresh `user_state` row produced by
`INSERT OR IGNORE INTO user_state (user_id, last_active_ts) VALUES (?, ?)`:
every unnamed column takes its schema default
(`last_proactive_ts 0`, `proactive_date ''`, `proactive_count_today 0`,
`proactive_enabled 1`, `cooldown_until_ts 0`, `lock_until_ts 0`). -/
def defaultRow (now_ts : Int) : UserState :=
  { last_active_ts := now_ts
    last_proactive_ts := 0
    proactive_date := ""
    proactive_count_today := 0
    proactive_enabled := 1
    cooldown_until_ts := 0
    lock_until_ts := 0 }

/-- Count that `claim_proactive_slot` in `db.py` actually compares against
`max_per_day`: the stored `proactive_count_today` when the stored
`proactive_date` equals today, else `0` (the reset is not written back). -/
def effectiveCount (s : UserState) (today_str : String) : Int :=
  if s.proactive_date = today_str then s.proactive_count_today else 0

/-- Embedding of `claim_proactive_slot` in `db.py` for the addressed user's
row. The whole body runs under `BEGIN IMMEDIATE`; a missing row is first
inserted with schema defaults, every failing gate calls `conn.rollback()`
(which also undoes that insert), and only the success path commits, writing
`lock_until_ts = now + lock_seconds`. -/
def claim_proactive_slot (st : Option UserState) (now_ts : Int) (today_str : String)
    (max_per_day : Int) (lock_seconds : Int) : Bool × Option UserState :=
  let row := match st with
    | some r => r
    | none => defaultRow now_ts
  if row.proactive_enabled ≠ 1 then (false, st)
  else if effectiveCount row today_str ≥ max_per_day then (false, st)
  else if row.cooldown_until_ts > now_ts then (false, st)
  else if row.lock_until_ts > now_ts then (false, st)
  else (true, some { row with lock_until_ts := now_ts + lock_seconds })

/-- Embedding of `mark_proactive_sent` in `db.py`: when the stored
`proactive_date` equals today the counter is incremented, otherwise it
restarts at `1`; the `UPDATE` also writes `last_proactive_ts`,
`proactive_date`, `cooldown_until_ts = now + cooldown_minutes * 60` and
clears `lock_until_ts`. Its `WHERE user_id = ?` matches nothing when the
row is absent, so `none` stays `none`. -/
def mark_proactive_sent (st : Option UserState) (now_ts : Int) (today_str : String)
    (cooldown_minutes : Int) : Option UserState :=
  match st with
  | none => none
  | some row =>
    let new_cnt : Int :=
      if row.proactive_date = today_str then row.proactive_count_today + 1 else 1
    some { row with
            last_proactive_ts := now_ts
            proactive_date := today_str
            proactive_count_today := new_cnt
            cooldown_until_ts := now_ts + cooldown_minutes * 60
            lock_until_ts := 0 }

/-- Embedding of `mark_proactive_failed` in `db.py`: the `UPDATE` writes
`lock_until_ts = 0` and `cooldown_until_ts = max(old, now + cooldown_seconds)`
for the addressed row, and matches nothing when the row is absent. -/
def mark_proactive_failed (st : Option UserState) (now_ts : Int)
    (cooldown_seconds : Int) : Option UserState :=
  match st with
  | none => none
  | some row =>
    some { row with
            lock_until_ts := 0
            cooldown_until_ts := max row.cooldown_until_ts (now_ts + cooldown_seconds) }

/-- Embedding of `claim_rss_slot` in `db.py`. A missing row rolls back and
returns `false` (no lazy creation here). The source runs two transactions:
the first sets `lock_until_ts = now + 300` and commits, the second writes
`cooldown_until_ts = now + cooldown_minutes * 60` and `lock_until_ts = 0`;
the value returned by the function leaves the row in the second state. -/
def claim_rss_slot (st : Option UserState) (now_ts : Int)
    (cooldown_minutes : Int) : Bool × Option UserState :=
  match st with
  | none => (false, none)
  | some row =>
    if row.lock_until_ts > now_ts then (false, some row)
    else if row.cooldown_until_ts > now_ts then (false, some row)
    else
      (true, some { row with
                      cooldown_until_ts := now_ts + cooldown_minutes * 60
                      lock_until_ts := 0 })

/-- Embedding of `touch_active` in `db.py`: `INSERT OR IGNORE` a default row,
then `UPDATE last_active_ts = now`. -/
def touch_active (st : Option UserState) (now_ts : Int) : UserState :=
  match st with
  | none => { defaultRow now_ts with last_active_ts := now_ts }
  | some row => { row with last_active_ts := now_ts }

/-- C1: the chat-nudge claim returns `false` exactly when the loaded row (the
stored one, or the lazily inserted default for a missing row) is disabled, or
its effective count for today is at least `max_per_day`, or
`cooldown_until_ts > now`, or `lock_until_ts > now`; otherwise it returns
`true` and the committed row is the loaded row with
`lock_until_ts = now + lock_seconds`, while a failed claim leaves the store
unchanged (rollback). The boundary instants `now = cooldown_until_ts` and
`now = lock_until_ts` fall on the success side, so an unsettled lock becomes
reclaimable exactly when `lock_until_ts` elapses. -/
theorem claim_proactive_slot_gating (st : Option UserState) (now_ts : Int)
    (today_str : String) (max_per_day lock_seconds : Int) :
    ((claim_proactive_slot st now_ts today_str max_per_day lock_seconds).1 = false ↔
      ((st.getD (defaultRow now_ts)).proactive_enabled ≠ 1 ∨
        max_per_day ≤ effectiveCount (st.getD (defaultRow now_ts)) today_str ∨
        now_ts < (st.getD (defaultRow now_ts)).cooldown_until_ts ∨
        now_ts < (st.getD (defaultRow now_ts)).lock_until_ts)) ∧
    (claim_proactive_slot st now_ts today_str max_per_day lock_seconds).2 =
      (if (claim_proactive_slot st now_ts today_str max_per_day lock_seconds).1 then
        some { st.getD (defaultRow now_ts) with lock_until_ts := now_ts + lock_seconds }
      else st) := by
  cases st <;>
    simp only [claim_proactive_slot, Option.getD] <;>
    split_ifs <;> simp_all

/-- C2 (amended): exclusivity of the claim under transaction serialization.
Every `claim_proactive_slot` body runs inside a `BEGIN IMMEDIATE` write
transaction of the shared SQLite store, so two claims racing at the same
instant — even from different OS processes — execute in some serial order;
this theorem shows that, provided `lock_seconds` is positive (the deployed
default is 300), when the first serialized claim succeeds (both gates
passing beforehand) the second claim at the same instant fails, hence
exactly one of the two returns `true`. With `lock_seconds = 0` the written
lock expires immediately and both serialized claims can succeed, so the
positivity proviso is necessary. -/
theorem claim_proactive_slot_exclusive (st : Option UserState) (now_ts : Int)
    (today_str : String) (max_per_day lock_seconds : Int)
    (hpos : 0 < lock_seconds)
    (hfirst : (claim_proactive_slot st now_ts today_str max_per_day lock_seconds).1 = true) :
    (claim_proactive_slot
        (claim_proactive_slot st now_ts today_str max_per_day lock_seconds).2
        now_ts today_str max_per_day lock_seconds).1 = false := by
  rcases claim_proactive_slot_gating st now_ts today_str max_per_day lock_seconds with ⟨_, hstate⟩
  rw [hfirst] at hstate
  simp only [if_true] at hstate
  rcases claim_proactive_slot_gating
      (claim_proactive_slot st now_ts today_str max_per_day lock_seconds).2
      now_ts today_str max_per_day lock_seconds with ⟨hiff, _⟩
  rw [hiff, hstate]
  simp only [Option.getD_some]
  exact Or.inr (Or.inr (Or.inr (by simp; omega)))

/-- C2 witness: a fresh user claimed at `now = 0` with quota 1 and the default
300 s lock; the second serialized claim at the same instant fails. -/
theorem claim_proactive_slot_exclusive_witness :
    (0 : Int) < 300 ∧
    (claim_proactive_slot none 0 "2026-10-12" 1 300).1 = true ∧
    (claim_proactive_slot (claim_proactive_slot none 0 "2026-10-12" 1 300).2
        0 "2026-10-12" 1 300).1 = false :=
  ⟨by decide, by decide,
    claim_proactive_slot_exclusive none 0 "2026-10-12" 1 300 (by decide) (by decide)⟩

/-- Iterated `mark_proactive_sent` for one user at a fixed instant: models N
consecutive settle-sent calls on the same calendar day. -/
def settleSentN (st : Option UserState) (now_ts : Int) (today_str : String)
    (cooldown_minutes : Int) : Nat → Option UserState
  | 0 => st
  | n + 1 =>
    mark_proactive_sent (settleSentN st now_ts today_str cooldown_minutes n)
      now_ts today_str cooldown_minutes

theorem settleSentN_succ (row : UserState) (now_ts : Int) (today_str : String)
    (cooldown_minutes : Int) (hday : row.proactive_date ≠ today_str) :
    ∀ n : Nat, settleSentN (some row) now_ts today_str cooldown_minutes (n + 1) =
      some { row with
              last_proactive_ts := now_ts
              proactive_date := today_str
              proactive_count_today := (n : Int) + 1
              cooldown_until_ts := now_ts + cooldown_minutes * 60
              lock_until_ts := 0 } := by
  intro n
  induction n with
  | zero => simp [settleSentN, mark_proactive_sent, hday]
  | succ k ih =>
    show mark_proactive_sent (settleSentN (some row) now_ts today_str cooldown_minutes (k + 1))
        now_ts today_str cooldown_minutes = _
    rw [ih]
    simp only [mark_proactive_sent, if_pos rfl]
    congr 1

/-- C3: starting from a row whose stored date is not today, N consecutive
settle-sent calls (N at least 1) leave `proactive_count_today = N` and
`proactive_date = today`; every settle-sent writes
`cooldown_until_ts = now + cooldown_minutes * 60` and clears
`lock_until_ts`; and after a day rollover (stored date differs from the new
day) a claim observes an effective count of 0 and decides exactly as it
would with the stored counter zeroed. -/
theorem settle_sent_quota (row : UserState) (now_ts : Int) (today_str : String)
    (cooldown_minutes : Int) (N : Nat)
    (hday : row.proactive_date ≠ today_str) (hN : 1 ≤ N) :
    (settleSentN (some row) now_ts today_str cooldown_minutes N =
      some { row with
              last_proactive_ts := now_ts
              proactive_date := today_str
              proactive_count_today := (N : Int)
              cooldown_until_ts := now_ts + cooldown_minutes * 60
              lock_until_ts := 0 }) ∧
    (∀ (s : UserState) (n2 : Int) (t2 : String) (c2 : Int),
      ∃ r, mark_proactive_sent (some s) n2 t2 c2 = some r ∧
        r.cooldown_until_ts = n2 + c2 * 60 ∧ r.lock_until_ts = 0) ∧
    (∀ (s : UserState) (n2 : Int) (t2 : String) (m ls : Int),
      s.proactive_date ≠ t2 →
        effectiveCount s t2 = 0 ∧
        (claim_proactive_slot (some s) n2 t2 m ls).1 =
          (claim_proactive_slot (some { s with proactive_count_today := 0 }) n2 t2 m ls).1) := by
  refine ⟨?_, ?_, ?_⟩
  · obtain ⟨n, rfl⟩ : ∃ n, N = n + 1 := ⟨N - 1, by omega⟩
    rw [settleSentN_succ row now_ts today_str cooldown_minutes hday n]
    congr 2
  · intro s n2 t2 c2
    exact ⟨_, rfl, by simp [mark_proactive_sent], by simp [mark_proactive_sent]⟩
  · intro s n2 t2 m ls hne
    refine ⟨by simp [effectiveCount, hne], ?_⟩
    simp only [claim_proactive_slot, effectiveCount, hne]
    split_ifs <;> simp_all

/-- C3 witness: three settle-sent calls on 2026-10-12 for a fresh row whose
stored date is empty. -/
theorem settle_sent_quota_witness :
    settleSentN (some (defaultRow 5)) 1000 "2026-10-12" 240 3 =
      some { defaultRow 5 with
              last_proactive_ts := 1000
              proactive_date := "2026-10-12"
              proactive_count_today := 3
              cooldown_until_ts := 1000 + 240 * 60
              lock_until_ts := 0 } := by
  exact (settle_sent_quota (defaultRow 5) 1000 "2026-10-12" 240 3 (by decide) (by decide)).1

/-- C4: settle-failed on an existing row rewrites exactly the cooldown (to
the max of the stored value and `now + cooldown_seconds`) and clears the
lock, leaving counter, date, enabled flag and activity timestamps untouched;
it never changes the effective daily count, while settle-sent always raises
the effective count for its day by one. -/
theorem mark_proactive_failed_frame (row : UserState) (now_ts : Int)
    (cooldown_seconds : Int) :
    (∃ r, mark_proactive_failed (some row) now_ts cooldown_seconds = some r ∧
      r.cooldown_until_ts = max row.cooldown_until_ts (now_ts + cooldown_seconds) ∧
      r.lock_until_ts = 0 ∧
      r.proactive_count_today = row.proactive_count_today ∧
      r.proactive_date = row.proactive_date ∧
      r.proactive_enabled = row.proactive_enabled ∧
      r.last_active_ts = row.last_active_ts ∧
      r.last_proactive_ts = row.last_proactive_ts) ∧
    (∀ (t2 : String) (c2 : Int),
      (mark_proactive_failed (some row) now_ts cooldown_seconds).map
          (fun r => effectiveCount r t2) = some (effectiveCount row t2) ∧
      (mark_proactive_sent (some row) now_ts t2 c2).map
          (fun r => effectiveCount r t2) = some (effectiveCount row t2 + 1)) := by
  refine ⟨⟨_, rfl, by simp [mark_proactive_failed], by simp [mark_proactive_failed],
    by simp [mark_proactive_failed], by simp [mark_proactive_failed],
    by simp [mark_proactive_failed], by simp [mark_proactive_failed],
    by simp [mark_proactive_failed]⟩, ?_⟩
  intro t2 c2
  constructor
  · simp [mark_proactive_failed, effectiveCount]
  · by_cases h : row.proactive_date = t2 <;>
      simp [mark_proactive_sent, effectiveCount, h]

/-- C6: a successful article-share claim (`claim_rss_slot`) at time `t`
leaves the user's row with `cooldown_until_ts = t + cooldown_minutes * 60`
and `lock_until_ts = 0`, and every chat-nudge claim
(`claim_proactive_slot`) on that row at an instant strictly inside the
resulting cooldown window fails — the two categories read and write the same
cooldown/lock columns of the one user row. -/
theorem rss_claim_blocks_proactive (st : Option UserState) (t : Int)
    (cooldown_minutes : Int)
    (hok : (claim_rss_slot st t cooldown_minutes).1 = true) :
    (∃ r, (claim_rss_slot st t cooldown_minutes).2 = some r ∧
      r.cooldown_until_ts = t + cooldown_minutes * 60 ∧ r.lock_until_ts = 0) ∧
    (∀ (now2 : Int) (today2 : String) (m ls : Int),
      t < now2 → now2 < t + cooldown_minutes * 60 →
        (claim_proactive_slot (claim_rss_slot st t cooldown_minutes).2
            now2 today2 m ls).1 = false) := by
  cases st with
  | none => simp [claim_rss_slot] at hok
  | some row =>
    by_cases hl : row.lock_until_ts > t
    · simp [claim_rss_slot, hl] at hok
    · by_cases hc : row.cooldown_until_ts > t
      · simp [claim_rss_slot, hl, hc] at hok
      · have h2 : (claim_rss_slot (some row) t cooldown_minutes).2 =
            some { row with
                    cooldown_until_ts := t + cooldown_minutes * 60
                    lock_until_ts := 0 } := by
          simp [claim_rss_slot, hl, hc]
        refine ⟨⟨_, h2, rfl, rfl⟩, ?_⟩
        intro now2 today2 m ls _ hwin
        rw [h2]
        simp only [claim_proactive_slot, effectiveCount]
        split_ifs <;> simp_all

/-- C6 witness: an idle default row claimed by the article-share category at
`t = 100` with a 120-minute cooldown; a chat-nudge claim at `now = 200`
inside the window fails. -/
theorem rss_claim_blocks_proactive_witness :
    (claim_rss_slot (some (defaultRow 0)) 100 120).1 = true ∧
    (claim_proactive_slot (claim_rss_slot (some (defaultRow 0)) 100 120).2
        200 "2026-10-12" 2 300).1 = false :=
  ⟨by decide,
    (rss_claim_blocks_proactive (some (defaultRow 0)) 100 120 (by decide)).2
      200 "2026-10-12" 2 300 (by decide) (by decide)⟩

/-- C7 counterexample: `claim_rss_slot` is a claim variant on the shared
per-user state row, yet it does not lazily create a missing row — for a
brand-new user it returns `false` and leaves the store empty, even though a
freshly created default row would pass all of its gates (second conjunct). -/
theorem claim_rss_slot_no_lazy_create :
    claim_rss_slot none 1000 120 = (false, none) ∧
    (claim_rss_slot (some (defaultRow 1000)) 1000 120).1 = true := by
  constructor <;> decide

/-- C7 amended: the chat-nudge claim `claim_proactive_slot` loads or lazily
creates the state row before gating, so a brand-new user passing the gates
is claimed successfully on the very first attempt and the created row is
committed; `touch_active` likewise creates the row on first activity. The
article-share variant `claim_rss_slot` is the exception: it requires an
existing row and fails otherwise. -/
theorem claim_lazy_create (now_ts : Int) (today_str : String)
    (max_per_day lock_seconds cooldown_minutes : Int)
    (hnow : 0 ≤ now_ts) (hmax : 1 ≤ max_per_day) :
    claim_proactive_slot none now_ts today_str max_per_day lock_seconds =
      (true, some { defaultRow now_ts with lock_until_ts := now_ts + lock_seconds }) ∧
    touch_active none now_ts = defaultRow now_ts ∧
    claim_rss_slot none now_ts cooldown_minutes = (false, none) := by
  refine ⟨?_, rfl, rfl⟩
  simp only [claim_proactive_slot, effectiveCount, defaultRow]
  split_ifs <;> simp_all <;> omega

/-- C7 witness: a brand-new user claimed at `now = 1000` with quota 2. -/
theorem claim_lazy_create_witness :
    claim_proactive_slot none 1000 "2026-10-12" 2 300 =
      (true, some { defaultRow 1000 with lock_until_ts := 1000 + 300 }) ∧
    touch_active none 1000 = defaultRow 1000 ∧
    claim_rss_slot none 1000 120 = (false, none) :=
  claim_lazy_create 1000 "2026-10-12" 2 300 120 (by decide) (by decide)

/-- Row of the `rss_seen` dedup table (`init_db` in `db.py`); `guid_hash` is
its primary key. -/
structure RssRow where
  guid_hash : String
  feed_url : String
  title : String
  link : String
  seen_ts : Int
  deriving DecidableEq, Repr

/-- Embedding of `rss_seen` in `db.py`: `SELECT 1 FROM rss_seen WHERE
guid_hash = ? LIMIT 1` is non-empty. -/
def rss_seen (table : List RssRow) (h : String) : Bool :=
  table.any (fun r => r.guid_hash == h)

/-- Embedding of `rss_mark_seen` in `db.py`: `INSERT OR REPLACE` on the
`guid_hash` primary key deletes any conflicting row and inserts the new
one. -/
def rss_mark_seen (table : List RssRow) (h feed_url title link : String)
    (now_ts : Int) : List RssRow :=
  (table.filter (fun r => !(r.guid_hash == h))) ++
    [{ guid_hash := h, feed_url := feed_url, title := title, link := link,
       seen_ts := now_ts }]

theorem rss_seen_filter_ne (tbl : List RssRow) (h h2 : String) (hne : h ≠ h2) :
    rss_seen (tbl.filter (fun r => !(r.guid_hash == h2))) h = rss_seen tbl h := by
  induction tbl with
  | nil => rfl
  | cons a l ih =>
    by_cases ha : a.guid_hash = h2
    · simp only [rss_seen, List.filter_cons, List.any_cons] at *
      simp [ha, ih, Ne.symm hne]
    · simp only [rss_seen, List.filter_cons, List.any_cons] at *
      simp [ha, ih]

/-- C8: the dedup registry behaves as a grow-only seen-set keyed by the
fingerprint hash. After `rss_mark_seen` the hash is seen; on the empty table
nothing is seen; marking any hash `h2` changes the seen status of a hash `h`
only by possibly setting it (the unconditional equation covers both the "mark
then seen is true" direction and "a seen hash is never removed"); and
re-marking the same hash with the same metadata leaves the table literally
unchanged (idempotence of the `INSERT OR REPLACE`). -/
theorem rss_seen_mark_seen (tbl : List RssRow) (h h2 fu ti li : String)
    (now_ts : Int) :
    rss_seen (rss_mark_seen tbl h fu ti li now_ts) h = true ∧
    rss_seen [] h = false ∧
    rss_seen (rss_mark_seen tbl h2 fu ti li now_ts) h = (h == h2 || rss_seen tbl h) ∧
    rss_mark_seen (rss_mark_seen tbl h fu ti li now_ts) h fu ti li now_ts =
      rss_mark_seen tbl h fu ti li now_ts := by
  refine ⟨?_, rfl, ?_, ?_⟩
  · simp [rss_seen, rss_mark_seen]
  · by_cases hcase : h = h2
    · subst hcase
      simp [rss_seen, rss_mark_seen]
    · simp only [rss_seen, rss_mark_seen, List.any_append, List.any_cons, List.any_nil]
      have := rss_seen_filter_ne tbl h h2 hcase
      simp only [rss_seen] at this
      have hb1 : (h2 == h) = false := beq_eq_false_iff_ne.mpr (Ne.symm hcase)
      have hb2 : (h == h2) = false := beq_eq_false_iff_ne.mpr hcase
      simp [this, hb1, hb2]
  · simp only [rss_mark_seen, List.filter_append, List.filter_filter]
    simp

/-- C10: settling (sent or failed) a user who has no state row returns
normally and leaves the store unchanged — the `UPDATE ... WHERE user_id = ?`
matches no row and neither function inserts one, so a settle without a prior
touch or claim is a silent no-op. -/
theorem settle_without_row_noop (now_ts : Int) (today_str : String)
    (cooldown_minutes cooldown_seconds : Int) :
    mark_proactive_sent none now_ts today_str cooldown_minutes = none ∧
    mark_proactive_failed none now_ts cooldown_seconds = none :=
  ⟨rfl, rfl⟩

/-- Control skeleton of the per-candidate loops of `_push_when_idle` in
`rss_push.py` and `_push_weather_once` in `weather_push.py`: each iteration
runs the whole per-candidate body inside `try/except` whose handler only
logs, so the loop records the outcome for the current candidate and moves on
to the next one. `step` stands for the body, returning `Except.error` when
the body raises. -/
def push_loop {α ε β : Type} (step : α → Except ε β) :
    List α → List (α × Except ε β)
  | [] => []
  | c :: rest => (c, step c) :: push_loop step rest

/-- Embedding of `_handle_one_candidate` in `proactive.py` acting on the
candidate's user row. `gen` stands for the generation-plus-delivery stage
inside the `try` block: `Except.error` when it raises, otherwise the
`(should_send, text)` fields of the generated payload. A raised exception
settles the user as failed with the default 600 s cooldown; a payload with
`should_send` false or empty text settles failed with 900 s; a delivered
payload settles sent. The claim itself runs with the default 300 s lock. -/
def handle_one_candidate {ε : Type} (st : Option UserState) (now_ts : Int)
    (today_str : String) (max_per_day cooldown_minutes : Int)
    (gen : Except ε (Bool × String)) : Bool × Option UserState :=
  let claimed := claim_proactive_slot st now_ts today_str max_per_day 300
  if claimed.1 = false then (false, claimed.2)
  else
    match gen with
    | Except.error _ => (false, mark_proactive_failed claimed.2 now_ts 600)
    | Except.ok p =>
      if p.1 && !(p.2 == "") then
        (true, mark_proactive_sent claimed.2 now_ts today_str cooldown_minutes)
      else (false, mark_proactive_failed claimed.2 now_ts 900)

/-- Embedding of the candidate loop of `proactive_job` in `proactive.py`:
candidates are handled strictly in sequence and the loop breaks after the
first successful send. Each entry of the input pairs a candidate's user row
with the outcome of its generation stage. -/
def proactive_tick {ε : Type} (now_ts : Int) (today_str : String)
    (max_per_day cooldown_minutes : Int) :
    List (Option UserState × Except ε (Bool × String)) →
      List (Bool × Option UserState)
  | [] => []
  | c :: rest =>
    let r := handle_one_candidate c.1 now_ts today_str max_per_day
      cooldown_minutes c.2
    if r.1 then [r]
    else r :: proactive_tick now_ts today_str max_per_day cooldown_minutes rest

theorem push_loop_visits_all {α ε β : Type} (step : α → Except ε β)
    (ts : List α) : (push_loop step ts).map Prod.fst = ts := by
  induction ts with
  | nil => rfl
  | cons c rest ih => simp [push_loop, ih]

/-- C9: one candidate's failure is isolated inside a driver tick. The
share-type loops (`_push_when_idle`, `_push_weather_once`) visit every
candidate of the tick whatever each per-candidate body's outcome is, and the
loop itself never produces an exceptional result (it is a total function
into a plain list). In the chat-nudge tick a candidate whose generation or
delivery stage raises is settled as failed (returns `false`) and the tick
continues with the remaining candidates. -/
theorem tick_isolates_candidate_failures {α ε β : Type} (step : α → Except ε β)
    (ts : List α) (now_ts : Int) (today_str : String)
    (max_per_day cooldown_minutes : Int) (st : Option UserState) (e : ε)
    (rest : List (Option UserState × Except ε (Bool × String))) :
    (push_loop step ts).map Prod.fst = ts ∧
    (handle_one_candidate st now_ts today_str max_per_day cooldown_minutes
        (Except.error e)).1 = false ∧
    proactive_tick now_ts today_str max_per_day cooldown_minutes
        ((st, Except.error e) :: rest) =
      handle_one_candidate st now_ts today_str max_per_day cooldown_minutes
          (Except.error e) ::
        proactive_tick now_ts today_str max_per_day cooldown_minutes rest := by
  have hfail : (handle_one_candidate st now_ts today_str max_per_day
      cooldown_minutes (Except.error e : Except ε (Bool × String))).1 = false := by
    simp only [handle_one_candidate]
    split_ifs <;> simp
  refine ⟨push_loop_visits_all step ts, hfail, ?_⟩
  simp only [proactive_tick, hfail]
  simp

/-- Constant `ACTIVE_WITHIN_SECONDS` of `db.py`: the 24-hour rolling
"still reachable" window for any unsolicited push. -/
def ACTIVE_WITHIN_SECONDS : Int := 24 * 60 * 60

/-- Candidate record built by `get_proactive_candidates` in `db.py`.
`nickname` and `last_user_text` come from the `user_profile` and
`chat_history` tables, modelled as lookup functions passed to the query. -/
structure ProactiveCandidate where
  user_id : Int
  nickname : Option String
  last_active_ts : Int
  last_user_text : Option String
  deriving DecidableEq, Repr

/-- The `WHERE` clause of the candidate query in `get_proactive_candidates`:
`proactive_enabled = 1 AND last_active_ts > 0 AND last_active_ts <= idle_ts
AND last_active_ts >= max(0, now - ACTIVE_WITHIN_SECONDS) AND
cooldown_until_ts <= now AND lock_until_ts <= now`. -/
def candidateFilter (now_ts idle_ts : Int) (s : UserState) : Bool :=
  s.proactive_enabled = 1 ∧ s.last_active_ts > 0 ∧ s.last_active_ts ≤ idle_ts ∧
    s.last_active_ts ≥ max 0 (now_ts - ACTIVE_WITHIN_SECONDS) ∧
    s.cooldown_until_ts ≤ now_ts ∧ s.lock_until_ts ≤ now_ts

/-- Ordering of the candidate query: `ORDER BY last_active_ts ASC`. -/
def byLastActive (p q : String × UserState) : Prop :=
  p.2.last_active_ts ≤ q.2.last_active_ts

instance : DecidableRel byLastActive :=
  fun p q => inferInstanceAs (Decidable (p.2.last_active_ts ≤ q.2.last_active_ts))

instance : IsTotal (String × UserState) byLastActive :=
  ⟨fun p q => Int.le_total p.2.last_active_ts q.2.last_active_ts⟩

instance : IsTrans (String × UserState) byLastActive :=
  ⟨fun _ _ _ h1 h2 => le_trans h1 h2⟩

def decDigitsAux : List Char → Nat → Option Nat
  | [], acc => some acc
  | c :: cs, acc =>
    if c.isDigit then decDigitsAux cs (acc * 10 + (c.toNat - 48)) else none

/-- Conversion corresponding to Python `int(uid_text)` as used on the
`user_id` column in `get_proactive_candidates`: an optional sign followed by
decimal digits, `none` (the row is skipped with `continue`) otherwise. -/
def parse_user_id (s : String) : Option Int :=
  match s.data with
  | [] => none
  | '-' :: [] => none
  | '-' :: cs => (decDigitsAux cs 0).map (fun n => -(n : Int))
  | cs => (decDigitsAux cs 0).map (fun n => (n : Int))

/-- Embedding of `get_proactive_candidates` in `db.py`: the `user_state`
rows satisfying the `WHERE` clause, ordered by `last_active_ts` ascending,
truncated by `LIMIT`, each surviving row turned into a `ProactiveCandidate`;
rows whose `user_id` text does not parse as an integer are skipped
(`int(uid_text)` with `continue` on failure). -/
def get_proactive_candidates (table : List (String × UserState))
    (nickOf lastTextOf : String → Option String)
    (now_ts idle_ts : Int) (limit : Nat) : List ProactiveCandidate :=
  ((List.insertionSort byLastActive
      (table.filter (fun p => candidateFilter now_ts idle_ts p.2))).take
    limit).filterMap
    (fun p => (parse_user_id p.1).map (fun uid =>
      { user_id := uid
        nickname := nickOf p.1
        last_active_ts := p.2.last_active_ts
        last_user_text := lastTextOf p.1 }))

/-- C5 counterexample: with `now = 200000` and the 8-hour minimum idle
cutoff `idle_ts = 171200`, a user whose `last_active_ts` sits exactly on the
24-hour cutoff `now - ACTIVE_WITHIN_SECONDS = 113600` is returned by the
scan: the SQL bound `last_active_ts >= now - ACTIVE_WITHIN_SECONDS` is
inclusive, so the idle band is closed at the 24-hour end, not strictly open
as the claim states (second conjunct: the user's `last_active_ts` is not
strictly after the cutoff). -/
theorem get_proactive_candidates_boundary :
    get_proactive_candidates [("7", defaultRow 113600)]
        (fun _ => none) (fun _ => none) 200000 171200 20 =
      [{ user_id := 7, nickname := none, last_active_ts := 113600,
         last_user_text := none }] ∧
    ¬ (200000 - ACTIVE_WITHIN_SECONDS < 113600) := by
  constructor
  · rfl
  · decide

/-- C5 amended: the eligibility scan returns only users whose row has
`proactive_enabled = 1`, `cooldown_until_ts ≤ now`, `lock_until_ts ≤ now`,
and `last_active_ts` inside the closed idle band
`[max 0 (now - ACTIVE_WITHIN_SECONDS), idle_ts]` together with
`last_active_ts > 0` — the 24-hour upper-idle cutoff is inclusive (a user
idle exactly 24 hours is still returned; a user idle 30 hours with an
8-to-24-hour window is excluded); the result is ordered by `last_active_ts`
ascending (most idle first) and holds at most `limit` entries. -/
theorem get_proactive_candidates_spec (table : List (String × UserState))
    (nickOf lastTextOf : String → Option String)
    (now_ts idle_ts : Int) (limit : Nat) :
    (∀ c ∈ get_proactive_candidates table nickOf lastTextOf now_ts idle_ts limit,
      ∃ p ∈ table,
        parse_user_id p.1 = some c.user_id ∧
        c.last_active_ts = p.2.last_active_ts ∧
        p.2.proactive_enabled = 1 ∧
        0 < p.2.last_active_ts ∧
        p.2.last_active_ts ≤ idle_ts ∧
        max 0 (now_ts - ACTIVE_WITHIN_SECONDS) ≤ p.2.last_active_ts ∧
        p.2.cooldown_until_ts ≤ now_ts ∧
        p.2.lock_until_ts ≤ now_ts) ∧
    ((get_proactive_candidates table nickOf lastTextOf now_ts idle_ts limit).map
        (fun c => c.last_active_ts)).Pairwise (fun a b => a ≤ b) ∧
    (get_proactive_candidates table nickOf lastTextOf now_ts idle_ts
        limit).length ≤ limit := by
  refine ⟨?_, ?_, ?_⟩
  · intro c hc
    rw [get_proactive_candidates, List.mem_filterMap] at hc
    obtain ⟨p, hp, hmap⟩ := hc
    obtain ⟨uid, huid, hbuild⟩ := Option.map_eq_some'.mp hmap
    have hp2 : p ∈ List.insertionSort byLastActive
        (table.filter (fun q => candidateFilter now_ts idle_ts q.2)) :=
      List.Sublist.subset (List.take_sublist _ _) hp
    have hp3 : p ∈ table.filter (fun q => candidateFilter now_ts idle_ts q.2) :=
      (List.perm_insertionSort byLastActive _).mem_iff.mp hp2
    rw [List.mem_filter] at hp3
    have hf := of_decide_eq_true hp3.2
    obtain ⟨h1, h2, h3, h4, h5, h6⟩ := hf
    refine ⟨p, hp3.1, ?_, ?_, h1, h2, h3, h4, h5, h6⟩
    · rw [huid, ← hbuild]
    · rw [← hbuild]
  · have hs : List.Pairwise byLastActive
        ((List.insertionSort byLastActive
          (table.filter (fun q => candidateFilter now_ts idle_ts q.2))).take
            limit) :=
      List.Pairwise.sublist (List.take_sublist _ _)
        (List.sorted_insertionSort byLastActive _)
    rw [get_proactive_candidates, List.map_filterMap, List.pairwise_filterMap]
    refine List.Pairwise.imp ?_ hs
    intro p q hpq x hx y hy
    simp only [Option.map_map, Option.mem_def, Option.map_eq_some'] at hx hy
    obtain ⟨u1, _, hx2⟩ := hx
    obtain ⟨u2, _, hy2⟩ := hy
    rw [← hx2, ← hy2]
    exact hpq
  · exact le_trans (List.length_filterMap_le _ _) (List.length_take_le _ _)

/-- C5 witness: the amended theorem applied to a one-row table whose user
sits exactly on the inclusive 24-hour cutoff; the row is selected and every
gate of the amended band holds for it, and the result respects the limit. -/
theorem get_proactive_candidates_spec_witness :
    (∃ p ∈ [("7", defaultRow 113600)],
      parse_user_id p.1 = some (7 : Int) ∧
      (113600 : Int) = p.2.last_active_ts ∧
      p.2.proactive_enabled = 1 ∧
      (0 : Int) < p.2.last_active_ts ∧
      p.2.last_active_ts ≤ 171200 ∧
      max 0 (200000 - ACTIVE_WITHIN_SECONDS) ≤ p.2.last_active_ts ∧
      p.2.cooldown_until_ts ≤ 200000 ∧
      p.2.lock_until_ts ≤ 200000) ∧
    (get_proactive_candidates [("7", defaultRow 113600)] (fun _ => none)
        (fun _ => none) 200000 171200 20).length ≤ 20 := by
  have h := get_proactive_candidates_spec [("7", defaultRow 113600)]
    (fun _ => none) (fun _ => none) 200000 171200 20
  have hout : get_proactive_candidates [("7", defaultRow 113600)]
      (fun _ => none) (fun _ => none) 200000 171200 20 =
      [{ user_id := 7, nickname := none, last_active_ts := 113600,
         last_user_text := none }] := rfl
  have hmem : ({ user_id := 7, nickname := none, last_active_ts := 113600,
                 last_user_text := none } : ProactiveCandidate) ∈
      get_proactive_candidates [("7", defaultRow 113600)] (fun _ => none)
        (fun _ => none) 200000 171200 20 := by
    rw [hout]
    exact List.mem_singleton_self _
  exact ⟨h.1 _ hmem, h.2.2⟩

/-- C2 counterexample: with `lock_seconds = 0` the success path writes
`lock_until_ts = now + 0`, which does not exceed `now`, so both serialized
claims at the same instant return `true` — "exactly one returns true" fails
as stated for that degenerate lock duration. -/
theorem claim_proactive_slot_zero_lock_both_succeed :
    (claim_proactive_slot (some (defaultRow 50)) 100 "2026-10-12" 2 0).1 = true ∧
    (claim_proactive_slot
        (claim_proactive_slot (some (defaultRow 50)) 100 "2026-10-12" 2 0).2
        100 "2026-10-12" 2 0).1 = true := by
  constructor <;> decide
